import Mathlib

/-!
Verification development for `jules-scratch/verification/verify_weather_fix.py`.

The script drives a headless browser: launch, open a page, navigate to a
fixed URL, click the day button, wait for the lunar modal, fill a location,
click a suggestion, then (inside a nested try/except) scroll to the weather
header, run three forecast waits, and take a success screenshot; the except
clause dumps the page content, takes a failure screenshot and re-raises; a
finally clause closes the browser.

The embedding models each primitive operation's outcome (success, or a
raised exception with a message) by an environment `Env`; `run` translates
the script's control flow and returns the list of observable events together
with the final outcome (`none` = normal return, `some e` = exception `e`
propagates out of `run`, so the process exits non-zero).
-/

namespace VerifyWeatherFix

/-- An exception raised by a primitive operation, identified by its message. -/
abbrev Err := String

/-- Playwright locators used by the script, as built in the source. -/
inductive Locator where
  | pageByRole (role name : String)
  | pageLocator (selector : String)
  | pageByText (text : String)
  | childByPlaceholder (parent : Locator) (placeholder : String)
  | childByRole (parent : Locator) (role name : String)
  | childByText (parent : Locator) (text : String)
  deriving DecidableEq, Repr

/-- The two wait assertions the script uses. -/
inductive WaitKind where
  | toBeVisible
  | toBeHidden
  deriving DecidableEq, Repr

/-- Observable events of a run. `wait`, `navigate` record the attempt with the
timeout passed in the source; `screenshot` records a written file; `printed`
a line on standard output; `contentDump` the print of the page markup;
`browserClose` the invocation of the close call in the finally clause. -/
inductive Event where
  | launched
  | pageCreated
  | navigate (url : String) (timeoutMs : Nat)
  | wait (loc : Locator) (kind : WaitKind) (timeoutMs : Nat)
  | click (loc : Locator)
  | fill (loc : Locator) (text : String)
  | scrollIntoView (loc : Locator)
  | printed (s : String)
  | contentDump
  | screenshot (path : String)
  | browserClose
  deriving DecidableEq, Repr

/-- Outcome of each primitive operation of the run: `none` means the call
succeeds, `some e` means it raises exception `e`. One field per call site
of the script, in source order. -/
structure Env where
  launch : Option Err
  newPage : Option Err
  goto : Option Err
  waitDayButton : Option Err
  clickDayButton : Option Err
  waitModal : Option Err
  fillLocation : Option Err
  waitSuggestion : Option Err
  clickSuggestion : Option Err
  scrollHeader : Option Err
  waitHeader : Option Err
  waitLoadingHidden : Option Err
  waitTemperature : Option Err
  shotSuccess : Option Err
  pageContent : Option Err
  shotFailure : Option Err
  closeBrowser : Option Err
  deriving DecidableEq, Repr

def appUrl : String := "http://localhost:5173"

def dayButton : Locator := .pageByRole "button" "15"

def lunarModalBody : Locator := .pageLocator "div.lunar-modal-body"

def locationInput : Locator := .childByPlaceholder lunarModalBody "Enter a location"

def suggestionText : String :=
  "Wellington, Wellington City, Wellington, 6011, New Zealand / Aotearoa"

def suggestionToClick : Locator := .pageByText suggestionText

def weatherHeader : Locator := .childByRole lunarModalBody "heading" "Weather Forecast"

def loadingText : Locator := .childByText lunarModalBody "Loading weather..."

def temperatureLabel : Locator := .childByText lunarModalBody "Temperature:"

def successPath : String := "jules-scratch/verification/verification.png"

def failurePath : String := "jules-scratch/verification/failure.png"

/-- A straight-line sequence of fallible operations: each slot holds the
operation's outcome from the environment, the events observable already when
the call is attempted (a wait or navigation being issued with its timeout),
and the events observable only when it succeeds (a click performed, a file
written, a line printed). -/
def seqRun : List (Option Err × List Event × List Event) → List Event × Option Err
  | [] => ([], none)
  | (o, pre, post) :: rest =>
    match o with
    | some e => (pre, some e)
    | none => (pre ++ post ++ (seqRun rest).1, (seqRun rest).2)

/-- All events the slots of a sequence could emit. -/
def eventsOf : List (Option Err × List Event × List Event) → List Event
  | [] => []
  | (_, pre, post) :: rest => pre ++ post ++ eventsOf rest

/-- Lines 13-29 of the script: goto, wait/click the day button, wait for the
modal, fill the location, wait/click the suggestion. -/
def mainSeq (env : Env) : List (Option Err × List Event × List Event) :=
  [ (env.goto, [Event.navigate appUrl 30000], []),
    (env.waitDayButton, [Event.wait dayButton .toBeVisible 15000], []),
    (env.clickDayButton, [], [Event.click dayButton]),
    (env.waitModal, [Event.wait lunarModalBody .toBeVisible 10000], []),
    (env.fillLocation, [], [Event.fill locationInput "Wellington"]),
    (env.waitSuggestion, [Event.wait suggestionToClick .toBeVisible 15000], []),
    (env.clickSuggestion, [], [Event.click suggestionToClick]) ]

/-- Lines 33-48 of the script, the body of the inner try: scroll the weather
header into view, the three forecast waits, then the success screenshot. -/
def forecastSeq (env : Env) : List (Option Err × List Event × List Event) :=
  [ (env.scrollHeader, [], [Event.scrollIntoView weatherHeader]),
    (env.waitHeader, [Event.wait weatherHeader .toBeVisible 5000], []),
    (env.waitLoadingHidden, [Event.wait loadingText .toBeHidden 15000], []),
    (env.waitTemperature, [Event.wait temperatureLabel .toBeVisible 5000], []),
    (env.shotSuccess, [],
      [Event.screenshot successPath,
       Event.printed "Screenshot saved to jules-scratch/verification/verification.png"]) ]

/-- Lines 50-56, the except clause entered with the caught exception `e`:
print the message, print the page content (the content call may itself
raise), take the failure screenshot (which may itself raise), then re-raise
the original exception. An exception raised inside the clause replaces the
original one, exactly as in Python. -/
def handler (env : Env) (e : Err) : List Event × Option Err :=
  match env.pageContent with
  | some e2 =>
    ([Event.printed ("An exception occurred during assertion: " ++ e),
      Event.printed "Dumping page content:"], some e2)
  | none =>
    match env.shotFailure with
    | some e3 =>
      ([Event.printed ("An exception occurred during assertion: " ++ e),
        Event.printed "Dumping page content:", Event.contentDump], some e3)
    | none =>
      ([Event.printed ("An exception occurred during assertion: " ++ e),
        Event.printed "Dumping page content:", Event.contentDump,
        Event.screenshot failurePath,
        Event.printed "Failure screenshot saved to jules-scratch/verification/failure.png"],
       some e)

/-- Lines 32-56: the inner try/except around the forecast phase. -/
def innerBlock (env : Env) : List Event × Option Err :=
  match (seqRun (forecastSeq env)).2 with
  | none => ((seqRun (forecastSeq env)).1, none)
  | some e =>
    ((seqRun (forecastSeq env)).1 ++ (handler env e).1, (handler env e).2)

/-- Lines 11-56: the body of the outer try. -/
def outerBody (env : Env) : List Event × Option Err :=
  match (seqRun (mainSeq env)).2 with
  | some e => ((seqRun (mainSeq env)).1, some e)
  | none =>
    ((seqRun (mainSeq env)).1 ++ (innerBlock env).1, (innerBlock env).2)

/-- The whole of `run` (lines 8-59): launch and page creation happen before
the try, so a failure there skips the finally clause; otherwise the finally
clause invokes the close call, and an exception raised by the close call
replaces the in-flight outcome, as in Python. -/
def run (env : Env) : List Event × Option Err :=
  match env.launch with
  | some e => ([], some e)
  | none =>
    match env.newPage with
    | some e => ([Event.launched], some e)
    | none =>
      ([Event.launched, Event.pageCreated] ++ (outerBody env).1 ++ [Event.browserClose],
       match env.closeBrowser with
       | some e2 => some e2
       | none => (outerBody env).2)

/-- Paths of the screenshot files written during a trace, in order. -/
def screenshotsOf : List Event → List String
  | [] => []
  | Event.screenshot p :: rest => p :: screenshotsOf rest
  | _ :: rest => screenshotsOf rest

/-- The wait events of a trace, in order. -/
def waitEvents : List Event → List Event
  | [] => []
  | Event.wait loc kind t :: rest => Event.wait loc kind t :: waitEvents rest
  | _ :: rest => waitEvents rest

/-- How many times the browser close call is invoked in a trace. -/
def closeCount : List Event → Nat
  | [] => 0
  | Event.browserClose :: rest => closeCount rest + 1
  | _ :: rest => closeCount rest

/-- The environment of a fully successful run: every primitive succeeds. -/
def envOk : Env :=
  ⟨none, none, none, none, none, none, none, none, none, none, none, none,
   none, none, none, none, none⟩

/-- The trace of the fully successful run. -/
def successTrace : List Event := (run envOk).1

/-- All seven operations before the inner try succeed. -/
def mainOk (env : Env) : Prop :=
  env.goto = none ∧ env.waitDayButton = none ∧ env.clickDayButton = none ∧
  env.waitModal = none ∧ env.fillLocation = none ∧ env.waitSuggestion = none ∧
  env.clickSuggestion = none

/-- The forecast-waiting phase (scroll plus the three waits, lines 33-44)
raises `e` at its first failing operation. -/
def forecastWaitFails (env : Env) (e : Err) : Prop :=
  env.scrollHeader = some e ∨
  (env.scrollHeader = none ∧ env.waitHeader = some e) ∨
  (env.scrollHeader = none ∧ env.waitHeader = none ∧ env.waitLoadingHidden = some e) ∨
  (env.scrollHeader = none ∧ env.waitHeader = none ∧ env.waitLoadingHidden = none ∧
    env.waitTemperature = some e)

/-- One of the three forecast waits (lines 36, 40, 44) raises `e` as the first
failing operation, the scroll having succeeded. -/
def forecastWaitFails3 (env : Env) (e : Err) : Prop :=
  env.scrollHeader = none ∧
  (env.waitHeader = some e ∨
   (env.waitHeader = none ∧ env.waitLoadingHidden = some e) ∨
   (env.waitHeader = none ∧ env.waitLoadingHidden = none ∧ env.waitTemperature = some e))

/-- One of the seven operations before the inner try (navigation, day-button
wait and click, modal wait, location fill, suggestion wait and click) raises
`e` as the first failing operation. -/
def mainFails (env : Env) (e : Err) : Prop :=
  env.goto = some e ∨
  (env.goto = none ∧ env.waitDayButton = some e) ∨
  (env.goto = none ∧ env.waitDayButton = none ∧ env.clickDayButton = some e) ∨
  (env.goto = none ∧ env.waitDayButton = none ∧ env.clickDayButton = none ∧
    env.waitModal = some e) ∨
  (env.goto = none ∧ env.waitDayButton = none ∧ env.clickDayButton = none ∧
    env.waitModal = none ∧ env.fillLocation = some e) ∨
  (env.goto = none ∧ env.waitDayButton = none ∧ env.clickDayButton = none ∧
    env.waitModal = none ∧ env.fillLocation = none ∧ env.waitSuggestion = some e) ∨
  (env.goto = none ∧ env.waitDayButton = none ∧ env.clickDayButton = none ∧
    env.waitModal = none ∧ env.fillLocation = none ∧ env.waitSuggestion = none ∧
    env.clickSuggestion = some e)

/-- Every operation a successful run executes succeeds: all call sites except
the two diagnostic ones inside the except clause, which a successful run
never reaches. -/
def successSteps (env : Env) : Prop :=
  env.launch = none ∧ env.newPage = none ∧ env.goto = none ∧
  env.waitDayButton = none ∧ env.clickDayButton = none ∧ env.waitModal = none ∧
  env.fillLocation = none ∧ env.waitSuggestion = none ∧ env.clickSuggestion = none ∧
  env.scrollHeader = none ∧ env.waitHeader = none ∧ env.waitLoadingHidden = none ∧
  env.waitTemperature = none ∧ env.shotSuccess = none ∧ env.closeBrowser = none

/-- A run where page creation raises after a successful browser launch. -/
def envNewPageFails : Env :=
  ⟨none, some "new_page failed", none, none, none, none, none, none, none,
   none, none, none, none, none, none, none, none⟩

/-- A run where navigation to the fixed URL raises (application unreachable). -/
def envNavFails : Env :=
  ⟨none, none, some "net::ERR_CONNECTION_REFUSED at http://localhost:5173", none,
   none, none, none, none, none, none, none, none, none, none, none, none, none⟩

/-- A run where the modal-visibility wait times out. -/
def envModalFails : Env :=
  ⟨none, none, none, none, none, some "Timeout 10000ms exceeded.", none, none,
   none, none, none, none, none, none, none, none, none⟩

/-- A run where the loading-text disappearance wait times out. -/
def envLoadingFails : Env :=
  ⟨none, none, none, none, none, none, none, none, none, none, none,
   some "Timeout 15000ms exceeded.", none, none, none, none, none⟩

/-- A run where the temperature-label wait times out. -/
def envTemperatureFails : Env :=
  ⟨none, none, none, none, none, none, none, none, none, none, none, none,
   some "Timeout 5000ms exceeded.", none, none, none, none⟩

/-- A run where the success screenshot itself raises after all waits passed. -/
def envShotSuccessFails : Env :=
  ⟨none, none, none, none, none, none, none, none, none, none, none, none,
   none, some "screenshot write failed", none, none, none⟩

/-- A run where the forecast-heading wait times out and then the page-content
call inside the except clause itself raises. -/
def envContentDumpFails : Env :=
  ⟨none, none, none, none, none, none, none, none, none, none,
   some "forecast heading timeout", none, none, none, some "content unavailable",
   none, none⟩

/-- The waits the claimed timeout policy enumerates, with its timeouts. -/
def tunedWaits : List Event :=
  [Event.wait suggestionToClick .toBeVisible 15000,
   Event.wait loadingText .toBeHidden 15000,
   Event.wait weatherHeader .toBeVisible 5000,
   Event.wait temperatureLabel .toBeVisible 5000,
   Event.wait lunarModalBody .toBeVisible 10000]

/-! ### Generic lemmas about the straight-line sequencer -/

theorem seqRun_subset (l : List (Option Err × List Event × List Event)) :
    ∀ x ∈ (seqRun l).1, x ∈ eventsOf l := by
  induction l with
  | nil => intro x hx; simp [seqRun] at hx
  | cons a rest ih =>
    obtain ⟨o, pre, post⟩ := a
    intro x hx
    cases o with
    | some e =>
      simp only [seqRun] at hx
      simp [eventsOf, hx]
    | none =>
      simp only [seqRun, List.mem_append] at hx
      rcases hx with (hx | hx) | hx
      · simp [eventsOf, hx]
      · simp [eventsOf, hx]
      · simp [eventsOf, ih x hx]

theorem closeCount_append (a b : List Event) :
    closeCount (a ++ b) = closeCount a + closeCount b := by
  induction a with
  | nil => simp [closeCount]
  | cons x rest ih =>
    cases x <;> simp [closeCount, ih]
    omega

theorem closeCount_eq_zero (l : List Event) (h : Event.browserClose ∉ l) :
    closeCount l = 0 := by
  induction l with
  | nil => rfl
  | cons x rest ih =>
    have hx : x ≠ Event.browserClose := by
      intro he; exact h (he ▸ List.mem_cons_self x rest)
    have hr : Event.browserClose ∉ rest := fun hm => h (List.mem_cons_of_mem x hm)
    cases x <;> simp_all [closeCount]

theorem eventsOf_mainSeq (env : Env) :
    eventsOf (mainSeq env) =
      [Event.navigate appUrl 30000, Event.wait dayButton .toBeVisible 15000,
       Event.click dayButton, Event.wait lunarModalBody .toBeVisible 10000,
       Event.fill locationInput "Wellington",
       Event.wait suggestionToClick .toBeVisible 15000,
       Event.click suggestionToClick] := rfl

theorem eventsOf_forecastSeq (env : Env) :
    eventsOf (forecastSeq env) =
      [Event.scrollIntoView weatherHeader, Event.wait weatherHeader .toBeVisible 5000,
       Event.wait loadingText .toBeHidden 15000,
       Event.wait temperatureLabel .toBeVisible 5000,
       Event.screenshot successPath,
       Event.printed "Screenshot saved to jules-scratch/verification/verification.png"] := rfl

theorem close_not_in_handler (env : Env) (e : Err) :
    Event.browserClose ∉ (handler env e).1 := by
  cases h1 : env.pageContent with
  | some e2 => simp [handler, h1]
  | none =>
    cases h2 : env.shotFailure with
    | some e3 => simp [handler, h1, h2]
    | none => simp [handler, h1, h2]

theorem close_not_in_outerBody (env : Env) :
    Event.browserClose ∉ (outerBody env).1 := by
  have hmain : Event.browserClose ∉ (seqRun (mainSeq env)).1 := by
    intro hx
    have := seqRun_subset (mainSeq env) _ hx
    rw [eventsOf_mainSeq] at this
    simp at this
  have hfore : Event.browserClose ∉ (seqRun (forecastSeq env)).1 := by
    intro hx
    have := seqRun_subset (forecastSeq env) _ hx
    rw [eventsOf_forecastSeq] at this
    simp at this
  have hinner : Event.browserClose ∉ (innerBlock env).1 := by
    unfold innerBlock
    cases hf : (seqRun (forecastSeq env)).2 with
    | none => simpa using hfore
    | some e =>
      simp only [List.mem_append, not_or]
      exact ⟨hfore, close_not_in_handler env e⟩
  unfold outerBody
  cases hm : (seqRun (mainSeq env)).2 with
  | some e => simpa using hmain
  | none =>
    simp only [List.mem_append, not_or]
    exact ⟨hmain, hinner⟩

/-- Once browser launch and page creation have succeeded, the finally clause
invokes the close call exactly once, whatever happens later in the run. -/
theorem closeOnceAux (env : Env) (hl : env.launch = none) (hnp : env.newPage = none) :
    closeCount (run env).1 = 1 := by
  have hbody := closeCount_eq_zero _ (close_not_in_outerBody env)
  simp [run, hl, hnp, closeCount_append, closeCount, hbody]

theorem handler_trace_shape (env : Env) (e : Err) :
    ∀ x ∈ (handler env e).1,
      x = Event.contentDump ∨ x = Event.screenshot failurePath ∨
        ∃ s, x = Event.printed s := by
  intro x hx
  cases h1 : env.pageContent with
  | some e2 =>
    simp [handler, h1] at hx
    rcases hx with hx | hx <;> subst hx <;> simp
  | none =>
    cases h2 : env.shotFailure with
    | some e3 =>
      simp [handler, h1, h2] at hx
      rcases hx with hx | hx | hx <;> subst hx <;> simp
    | none =>
      simp [handler, h1, h2] at hx
      rcases hx with hx | hx | hx | hx | hx <;> subst hx <;> simp

theorem innerBlock_trace_shape (env : Env) :
    ∀ x ∈ (innerBlock env).1,
      x ∈ eventsOf (forecastSeq env) ∨ x = Event.contentDump ∨
        x = Event.screenshot failurePath ∨ ∃ s, x = Event.printed s := by
  intro x hx
  unfold innerBlock at hx
  cases hf : (seqRun (forecastSeq env)).2 with
  | none =>
    simp only [hf] at hx
    exact Or.inl (seqRun_subset _ _ hx)
  | some e =>
    simp only [hf, List.mem_append] at hx
    rcases hx with hx | hx
    · exact Or.inl (seqRun_subset _ _ hx)
    · exact Or.inr (handler_trace_shape env e x hx)

theorem outerBody_trace_shape (env : Env) :
    ∀ x ∈ (outerBody env).1,
      x ∈ eventsOf (mainSeq env) ∨ x ∈ eventsOf (forecastSeq env) ∨
        x = Event.contentDump ∨ x = Event.screenshot failurePath ∨
        ∃ s, x = Event.printed s := by
  intro x hx
  unfold outerBody at hx
  cases hm : (seqRun (mainSeq env)).2 with
  | some e =>
    simp only [hm] at hx
    exact Or.inl (seqRun_subset _ _ hx)
  | none =>
    simp only [hm, List.mem_append] at hx
    rcases hx with hx | hx
    · exact Or.inl (seqRun_subset _ _ hx)
    · exact Or.inr (innerBlock_trace_shape env x hx)

theorem run_trace_shape (env : Env) :
    ∀ x ∈ (run env).1,
      x = Event.launched ∨ x = Event.pageCreated ∨ x = Event.browserClose ∨
        x ∈ eventsOf (mainSeq env) ∨ x ∈ eventsOf (forecastSeq env) ∨
        x = Event.contentDump ∨ x = Event.screenshot failurePath ∨
        ∃ s, x = Event.printed s := by
  intro x hx
  cases hl : env.launch with
  | some e => simp [run, hl] at hx
  | none =>
    cases hnp : env.newPage with
    | some e =>
      simp [run, hl, hnp] at hx
      simp [hx]
    | none =>
      simp only [run, hl, hnp, List.mem_append, List.mem_cons,
        List.mem_singleton, List.not_mem_nil, or_false] at hx
      rcases hx with ((hx | hx) | hx) | hx
      · exact Or.inl hx
      · exact Or.inr (Or.inl hx)
      · rcases outerBody_trace_shape env x hx with h | h
        · exact Or.inr (Or.inr (Or.inr (Or.inl h)))
        · exact Or.inr (Or.inr (Or.inr (Or.inr h)))
      · exact Or.inr (Or.inr (Or.inl hx))

theorem navigate_in_mainTrace (env : Env) :
    Event.navigate appUrl 30000 ∈ (seqRun (mainSeq env)).1 := by
  cases hg : env.goto <;> simp [seqRun, mainSeq, hg]

theorem mem_outerBody_of_mem_main (env : Env) (x : Event)
    (hx : x ∈ (seqRun (mainSeq env)).1) : x ∈ (outerBody env).1 := by
  unfold outerBody
  cases hm : (seqRun (mainSeq env)).2 <;> simp [hx]

theorem mem_run_of_mem_outerBody (env : Env) (x : Event)
    (hl : env.launch = none) (hnp : env.newPage = none)
    (hx : x ∈ (outerBody env).1) : x ∈ (run env).1 := by
  simp [run, hl, hnp, hx]

/-! ### Claim C1 -/

/-- Claim C1, counterexample: page creation (`browser.new_page()`, line 9)
happens before the try/finally, so when it raises, the launched browser is
never closed — the close call runs zero times, not once. -/
theorem newPage_fail_leaks_browser :
    Event.launched ∈ (run envNewPageFails).1 ∧
      closeCount (run envNewPageFails).1 = 0 := by decide

/-- Claim C1 as amended: for every run in which browser launch and page
creation both succeed, the close call of the finally clause is invoked
exactly once before the run ends, on every exit path; if page creation
itself raises, the launched browser is not closed. -/
theorem browser_closed_once_after_setup (env : Env)
    (hl : env.launch = none) (hnp : env.newPage = none) :
    closeCount (run env).1 = 1 :=
  closeOnceAux env hl hnp

/-- Witness for C1 at the all-success environment. -/
theorem browser_closed_once_after_setup_witness :
    closeCount (run envOk).1 = 1 :=
  browser_closed_once_after_setup envOk rfl rfl

/-! ### Claim C3 -/

/-- Claim C3, counterexample: the successful run contains no navigation with
a 15-second timeout; the navigation it performs uses a 30-second timeout
(`page.goto(..., timeout=30000)`, line 13). -/
theorem nav_timeout_is_not_15s :
    Event.navigate appUrl 15000 ∉ (run envOk).1 ∧
      Event.navigate appUrl 30000 ∈ (run envOk).1 := by decide

/-- Claim C3 as amended: the initial page load uses a 30-second timeout — in
every run that reaches the try block, navigation to the fixed URL is issued
with a 30000 ms bound, and every navigation event of any run carries that
bound. -/
theorem nav_uses_30s_timeout (env : Env)
    (hl : env.launch = none) (hnp : env.newPage = none) :
    Event.navigate appUrl 30000 ∈ (run env).1 ∧
      ∀ t, Event.navigate appUrl t ∈ (run env).1 → t = 30000 := by
  constructor
  · exact mem_run_of_mem_outerBody env _ hl hnp
      (mem_outerBody_of_mem_main env _ (navigate_in_mainTrace env))
  · intro t ht
    rcases run_trace_shape env _ ht with h | h | h | h | h | h | h | ⟨s, h⟩
    · simp at h
    · simp at h
    · simp at h
    · rw [eventsOf_mainSeq] at h
      simp at h
      exact h
    · rw [eventsOf_forecastSeq] at h
      simp at h
    · simp at h
    · simp at h
    · simp at h

/-- Witness for C3 at the all-success environment. -/
theorem nav_uses_30s_timeout_witness :
    Event.navigate appUrl 30000 ∈ (run envOk).1 :=
  (nav_uses_30s_timeout envOk rfl rfl).1

/-! ### Claim C8 -/

/-- Claim C8: when the application is unreachable, navigation is attempted
with its 30-second bound and raises; the exception propagates out of the run
(so the process exits non-zero) and no screenshot file at all is written. -/
theorem unreachable_navigation_no_screenshots (env : Env) (e : Err)
    (hl : env.launch = none) (hnp : env.newPage = none)
    (hg : env.goto = some e) (hcb : env.closeBrowser = none) :
    (run env).2 = some e ∧ screenshotsOf (run env).1 = [] ∧
      Event.navigate appUrl 30000 ∈ (run env).1 := by
  simp [run, outerBody, seqRun, mainSeq, screenshotsOf, hl, hnp, hg, hcb]

/-- Witness for C8: a run whose navigation raises a connection error. -/
theorem unreachable_navigation_no_screenshots_witness :
    (run envNavFails).2 = some "net::ERR_CONNECTION_REFUSED at http://localhost:5173" ∧
      screenshotsOf (run envNavFails).1 = [] ∧
      Event.navigate appUrl 30000 ∈ (run envNavFails).1 :=
  unreachable_navigation_no_screenshots envNavFails
    "net::ERR_CONNECTION_REFUSED at http://localhost:5173" rfl rfl rfl rfl

/-! ### Claim C2 -/

/-- Claim C2: when a forecast-waiting operation raises and the diagnostic
actions themselves succeed, the run dumps the page content to standard
output, writes the failure screenshot at the fixed failure path, and the
original exception propagates unchanged out of the run. -/
theorem forecast_fail_dumps_and_screenshots (env : Env) (e : Err)
    (hl : env.launch = none) (hnp : env.newPage = none) (hm : mainOk env)
    (hf : forecastWaitFails env e)
    (hpc : env.pageContent = none) (hsf : env.shotFailure = none)
    (hcb : env.closeBrowser = none) :
    (run env).2 = some e ∧ Event.contentDump ∈ (run env).1 ∧
      Event.screenshot failurePath ∈ (run env).1 := by
  obtain ⟨h1, h2, h3, h4, h5, h6, h7⟩ := hm
  rcases hf with h | ⟨ha, h⟩ | ⟨ha, hb, h⟩ | ⟨ha, hb, hc, h⟩ <;>
    simp_all [run, outerBody, innerBlock, handler, seqRun, mainSeq, forecastSeq]

/-- Witness for C2: the loading-text wait times out; the dump and the
failure screenshot happen and the timeout error propagates. -/
theorem forecast_fail_dumps_and_screenshots_witness :
    (run envLoadingFails).2 = some "Timeout 15000ms exceeded." ∧
      Event.contentDump ∈ (run envLoadingFails).1 ∧
      Event.screenshot failurePath ∈ (run envLoadingFails).1 :=
  forecast_fail_dumps_and_screenshots envLoadingFails "Timeout 15000ms exceeded."
    rfl rfl ⟨rfl, rfl, rfl, rfl, rfl, rfl, rfl⟩
    (Or.inr (Or.inr (Or.inl ⟨rfl, rfl, rfl⟩))) rfl rfl rfl

/-! ### Claim C4 -/

/-- Claim C4, counterexample: the success-screenshot call (line 47) sits
inside the inner try, so when it raises, the except clause does run its
diagnostics — the page content is dumped and the failure screenshot is
written, contradicting the claim that this step propagates with no
diagnostic capture. -/
theorem success_shot_fail_triggers_diagnostics :
    Event.contentDump ∈ (run envShotSuccessFails).1 ∧
      Event.screenshot failurePath ∈ (run envShotSuccessFails).1 := by decide

/-- Claim C4 as amended: an exception raised during navigation, modal
opening, location entry, or suggestion selection propagates directly with no
diagnostic capture — no content dump, no failure screenshot, indeed no
screenshot file at all; the success-screenshot capture is excluded because
its failure does trigger the diagnostics. -/
theorem pre_forecast_fail_no_diagnostics (env : Env) (e : Err)
    (hl : env.launch = none) (hnp : env.newPage = none)
    (hm : mainFails env e) (hcb : env.closeBrowser = none) :
    (run env).2 = some e ∧ Event.contentDump ∉ (run env).1 ∧
      Event.screenshot failurePath ∉ (run env).1 ∧
      screenshotsOf (run env).1 = [] := by
  rcases hm with h | ⟨h1, h⟩ | ⟨h1, h2, h⟩ | ⟨h1, h2, h3, h⟩ | ⟨h1, h2, h3, h4, h⟩ |
      ⟨h1, h2, h3, h4, h5, h⟩ | ⟨h1, h2, h3, h4, h5, h6, h⟩ <;>
    simp_all [run, outerBody, seqRun, mainSeq, screenshotsOf]

/-- Witness for C4: the modal wait times out; no dump, no screenshots. -/
theorem pre_forecast_fail_no_diagnostics_witness :
    (run envModalFails).2 = some "Timeout 10000ms exceeded." ∧
      Event.contentDump ∉ (run envModalFails).1 ∧
      Event.screenshot failurePath ∉ (run envModalFails).1 ∧
      screenshotsOf (run envModalFails).1 = [] :=
  pre_forecast_fail_no_diagnostics envModalFails "Timeout 10000ms exceeded."
    rfl rfl (Or.inr (Or.inr (Or.inr (Or.inl ⟨rfl, rfl, rfl, rfl⟩)))) rfl

/-! ### Claim C5 -/

/-- Claim C5, counterexample: in the successful run the script scrolls the
weather header into view (line 35) before waiting for it to become visible
(line 36), so the claimed wait-then-scroll order does not hold. -/
theorem forecast_wait_before_scroll_false :
    ¬ (successTrace.indexOf (Event.wait weatherHeader WaitKind.toBeVisible 5000)
        < successTrace.indexOf (Event.scrollIntoView weatherHeader)) := by decide

/-- Claim C5 as amended: in the forecast-verification phase the script first
scrolls the forecast heading into view, then waits for it to become visible,
then waits for the loading indicator to disappear, then waits for the
result label. -/
theorem forecast_phase_order :
    Event.scrollIntoView weatherHeader ∈ successTrace ∧
      Event.wait weatherHeader WaitKind.toBeVisible 5000 ∈ successTrace ∧
      Event.wait loadingText WaitKind.toBeHidden 15000 ∈ successTrace ∧
      Event.wait temperatureLabel WaitKind.toBeVisible 5000 ∈ successTrace ∧
      successTrace.indexOf (Event.scrollIntoView weatherHeader)
        < successTrace.indexOf (Event.wait weatherHeader WaitKind.toBeVisible 5000) ∧
      successTrace.indexOf (Event.wait weatherHeader WaitKind.toBeVisible 5000)
        < successTrace.indexOf (Event.wait loadingText WaitKind.toBeHidden 15000) ∧
      successTrace.indexOf (Event.wait loadingText WaitKind.toBeHidden 15000)
        < successTrace.indexOf (Event.wait temperatureLabel WaitKind.toBeVisible 5000) := by
  decide

/-! ### Claim C6 -/

/-- Claim C6: a successful run returns normally, writes exactly one
screenshot file, at the fixed success path, and writes no failure
screenshot. -/
theorem successful_run_single_screenshot (env : Env) (h : successSteps env) :
    (run env).2 = none ∧ screenshotsOf (run env).1 = [successPath] ∧
      Event.screenshot failurePath ∉ (run env).1 := by
  obtain ⟨hl, hnp, h1, h2, h3, h4, h5, h6, h7, ha, hb, hc, hd, he, hcb⟩ := h
  simp_all [run, outerBody, innerBlock, seqRun, mainSeq, forecastSeq,
    screenshotsOf, successPath, failurePath]

/-- Witness for C6 at the all-success environment. -/
theorem successful_run_single_screenshot_witness :
    (run envOk).2 = none ∧ screenshotsOf (run envOk).1 = [successPath] ∧
      Event.screenshot failurePath ∉ (run envOk).1 :=
  successful_run_single_screenshot envOk
    ⟨rfl, rfl, rfl, rfl, rfl, rfl, rfl, rfl, rfl, rfl, rfl, rfl, rfl, rfl, rfl⟩

/-! ### Claim C7 -/

/-- Claim C7, counterexample: the claimed per-step enumeration does not
cover all waits after navigation — the day-button visibility wait
(`expect(page.get_by_role("button", name="15")).to_be_visible(timeout=15000)`,
line 16) is a post-navigation wait absent from the enumerated set. -/
theorem tuned_waits_incomplete :
    ¬ (∀ w ∈ waitEvents successTrace, w ∈ tunedWaits) := by decide

/-- Claim C7 as amended: the waits after navigation are exactly, in order:
the day-button visibility wait at 15 seconds, the modal transition at 10
seconds, the address-suggestion visibility wait at 15 seconds, the forecast
heading at 5 seconds, the loading-text disappearance at 15 seconds, and the
result-label visibility wait at 5 seconds. -/
theorem all_waits_use_tuned_timeouts :
    waitEvents successTrace =
      [Event.wait dayButton .toBeVisible 15000,
       Event.wait lunarModalBody .toBeVisible 10000,
       Event.wait suggestionToClick .toBeVisible 15000,
       Event.wait weatherHeader .toBeVisible 5000,
       Event.wait loadingText .toBeHidden 15000,
       Event.wait temperatureLabel .toBeVisible 5000] := by decide

/-! ### Claim C9 -/

/-- Claim C9: after a forecast-waiting failure `e`, a failing diagnostic
replaces the propagated exception — if the page-content call raises, that
exception propagates and neither the dump nor the failure screenshot is
produced; if the content call succeeds but the failure screenshot raises,
that exception propagates after the dump and no failure-screenshot file is
written; the original `e` propagates when both diagnostics complete; and in
every case the browser close call still runs exactly once. -/
theorem diagnostic_failure_replaces_exception (env : Env) (e : Err)
    (hl : env.launch = none) (hnp : env.newPage = none) (hm : mainOk env)
    (hf : forecastWaitFails env e) (hcb : env.closeBrowser = none) :
    (∀ e2, env.pageContent = some e2 →
        (run env).2 = some e2 ∧ Event.contentDump ∉ (run env).1 ∧
          Event.screenshot failurePath ∉ (run env).1) ∧
    (∀ e3, env.pageContent = none → env.shotFailure = some e3 →
        (run env).2 = some e3 ∧ Event.contentDump ∈ (run env).1 ∧
          Event.screenshot failurePath ∉ (run env).1) ∧
    (env.pageContent = none → env.shotFailure = none → (run env).2 = some e) ∧
    closeCount (run env).1 = 1 := by
  obtain ⟨h1, h2, h3, h4, h5, h6, h7⟩ := hm
  refine ⟨?_, ?_, ?_, closeOnceAux env hl hnp⟩
  · intro e2 hpc
    rcases hf with h | ⟨ha, h⟩ | ⟨ha, hb, h⟩ | ⟨ha, hb, hc, h⟩ <;>
      simp_all [run, outerBody, innerBlock, handler, seqRun, mainSeq, forecastSeq]
  · intro e3 hpc hsf
    rcases hf with h | ⟨ha, h⟩ | ⟨ha, hb, h⟩ | ⟨ha, hb, hc, h⟩ <;>
      simp_all [run, outerBody, innerBlock, handler, seqRun, mainSeq, forecastSeq]
  · intro hpc hsf
    rcases hf with h | ⟨ha, h⟩ | ⟨ha, hb, h⟩ | ⟨ha, hb, hc, h⟩ <;>
      simp_all [run, outerBody, innerBlock, handler, seqRun, mainSeq, forecastSeq]

/-- Witness for C9: the heading wait times out, then the page-content call
raises; the content error propagates and the browser is still closed. -/
theorem diagnostic_failure_replaces_exception_witness :
    (run envContentDumpFails).2 = some "content unavailable" ∧
      closeCount (run envContentDumpFails).1 = 1 := by
  have h := diagnostic_failure_replaces_exception envContentDumpFails
    "forecast heading timeout" rfl rfl ⟨rfl, rfl, rfl, rfl, rfl, rfl, rfl⟩
    (Or.inr (Or.inl ⟨rfl, rfl⟩)) rfl
  exact ⟨(h.1 "content unavailable" rfl).1, h.2.2.2⟩

/-! ### Claim C10 -/

/-- Claim C10: when one of the three forecast waits raises (and the
diagnostics succeed), the success-screenshot operation is never reached —
no file is written at the success path, and the only screenshot written by
the run is the one at the failure path. -/
theorem forecast_wait_fail_only_failure_screenshot (env : Env) (e : Err)
    (hl : env.launch = none) (hnp : env.newPage = none) (hm : mainOk env)
    (hf : forecastWaitFails3 env e)
    (hpc : env.pageContent = none) (hsf : env.shotFailure = none)
    (hcb : env.closeBrowser = none) :
    Event.screenshot successPath ∉ (run env).1 ∧
      screenshotsOf (run env).1 = [failurePath] := by
  obtain ⟨h1, h2, h3, h4, h5, h6, h7⟩ := hm
  obtain ⟨ha, hf⟩ := hf
  rcases hf with h | ⟨hb, h⟩ | ⟨hb, hc, h⟩ <;>
    simp_all [run, outerBody, innerBlock, handler, seqRun, mainSeq, forecastSeq,
      screenshotsOf, successPath, failurePath]

/-- Witness for C10: the temperature-label wait times out; only the failure
screenshot is written. -/
theorem forecast_wait_fail_only_failure_screenshot_witness :
    Event.screenshot successPath ∉ (run envTemperatureFails).1 ∧
      screenshotsOf (run envTemperatureFails).1 = [failurePath] :=
  forecast_wait_fail_only_failure_screenshot envTemperatureFails
    "Timeout 5000ms exceeded." rfl rfl ⟨rfl, rfl, rfl, rfl, rfl, rfl, rfl⟩
    ⟨rfl, Or.inr (Or.inr ⟨rfl, rfl, rfl⟩)⟩ rfl rfl rfl

end VerifyWeatherFix
